import Mathlib

/-!
Verification of the js-lite event logging pipeline (`src/StatsigLogger.ts`,
`src/LogEvent.ts`) against its natural-language specification.

The TypeScript source is shallowly embedded: the mutable `StatsigLogger`
instance state becomes the structure `LoggerState`, each method becomes a pure
state-transformer, JS `Record<string, T>` objects become association lists with
first-match lookup, JS numbers (all integral here) become `Nat` (the two
`x - c` subtractions in the source agree with truncated `Nat` subtraction
because the compared values are nonnegative), and the external network /
storage collaborators become explicit parameters.
-/

namespace StatsigLite


/-- `MS_RETRY_LOGS_CUTOFF = 5 * 24 * 60 * 60 * 1000` (StatsigLogger.ts line 28). -/
def MS_RETRY_LOGS_CUTOFF : Nat := 5 * 24 * 60 * 60 * 1000

/-- `MAX_BATCHES_TO_RETRY = 100` (StatsigLogger.ts line 29). -/
def MAX_BATCHES_TO_RETRY : Nat := 100

/-- `MAX_FAILED_EVENTS = 1000` (StatsigLogger.ts line 30). -/
def MAX_FAILED_EVENTS : Nat := 1000

/-- `MAX_LOCAL_STORAGE_SIZE = 1024 * MAX_FAILED_EVENTS` (StatsigLogger.ts line 31). -/
def MAX_LOCAL_STORAGE_SIZE : Nat := 1024 * MAX_FAILED_EVENTS

/-- `type FailedLogEventBody = { events: object[]; statsigMetadata: object; time: number }`
(StatsigLogger.ts lines 22-26).  Events and metadata objects are opaque to the
logger, so they are type parameters `ε` and `μ`. -/
structure FailedLogEventBody (ε μ : Type) where
  events : List ε
  statsigMetadata : μ
  time : Nat
deriving DecidableEq

/-- Model of the string stored under the durable localStorage key: its
character length (what `failedRequests.length` reads) together with the
outcome of `JSON.parse` on it — `none` when parsing throws or does not yield
an iterable, otherwise the item list, where an item is `none` when it fails
the structural check `requestBody != null && requestBody.events &&
Array.isArray(requestBody.events)` (StatsigLogger.ts lines 351-356). -/
structure PersistedPayload (ε μ : Type) where
  strLength : Nat
  parsed : Option (List (Option (FailedLogEventBody ε μ)))
deriving DecidableEq

/-- The mutable fields of a `StatsigLogger` instance (StatsigLogger.ts lines
39-45) plus the durable substrate content under the fixed logging-request
key.  `loggedErrors : Set<string>` becomes a list queried by membership;
`exposureDedupeKeys : Record<string, number>` becomes an association list. -/
structure LoggerState (ε μ : Type) where
  queue : List ε
  failedLogEvents : List (FailedLogEventBody ε μ)
  failedLogEventCount : Nat
  loggedErrors : List String
  exposureDedupeKeys : List (String × Nat)
  localStorage : Option (PersistedPayload ε μ)
deriving DecidableEq

variable {ε μ : Type}

/-- The constructor state (StatsigLogger.ts lines 58-64), with the durable
key content left as a parameter of the startup-replay claims. -/
def initState : LoggerState ε μ :=
  { queue := []
    failedLogEvents := []
    failedLogEventCount := 0
    loggedErrors := []
    exposureDedupeKeys := []
    localStorage := none }

/-- JS `record[key]` on a `Record<string, T>`: first-match lookup. -/
def recordGet {α : Type} (m : List (String × α)) (key : String) : Option α :=
  (m.find? (fun p => p.1 == key)).map (·.2)

/-- JS `record[key] = v`: the new binding shadows any older one. -/
def recordSet {α : Type} (m : List (String × α)) (key : String) (v : α) :
    List (String × α) :=
  (key, v) :: m

/-- `_shouldLogExposure` (StatsigLogger.ts lines 419-431), returning the
boolean result together with the updated `exposureDedupeKeys` map.  `now` is
the value of `Date.now()` at the call.  The source compares
`lastTime >= now - 600 * 1000`; since `lastTime ≥ 0`, the JS comparison (where
the right side may be negative) coincides with truncated `Nat` subtraction. -/
def shouldLogExposure (keys : List (String × Nat)) (key : String) (now : Nat) :
    Bool × List (String × Nat) :=
  match recordGet keys key with
  | none => (true, recordSet keys key now)
  | some lastTime =>
    if lastTime ≥ now - 600 * 1000 then (false, keys)
    else (true, recordSet keys key now)

/-- Folding repeated `_shouldLogExposure` probes of one key at the given
sequence of clock readings, keeping only the evolving dedupe map. -/
def probeAll (keys : List (String × Nat)) (key : String) (ts : List Nat) :
    List (String × Nat) :=
  ts.foldl (fun m t => (shouldLogExposure m key t).2) keys

/-- `_addFailedRequest` (StatsigLogger.ts lines 447-460).  `now` is the value
of `Date.now()` at the call; `requestBody.time < now - MS_RETRY_LOGS_CUTOFF`
agrees with the JS comparison because `requestBody.time ≥ 0`. -/
def addFailedRequest (now : Nat) (st : LoggerState ε μ)
    (requestBody : FailedLogEventBody ε μ) : LoggerState ε μ :=
  if requestBody.time < now - MS_RETRY_LOGS_CUTOFF then st
  else if st.failedLogEvents.length > MAX_BATCHES_TO_RETRY then st
  else if st.failedLogEventCount + requestBody.events.length > MAX_FAILED_EVENTS
    then st
  else
    { st with
        failedLogEvents := st.failedLogEvents ++ [requestBody]
        failedLogEventCount := st.failedLogEventCount + requestBody.events.length }

/-- `_newFailedRequest` (StatsigLogger.ts lines 466-479), minus the trailing
`_saveFailedRequests` persistence side effect.  It pushes the batch with no
age/count bound checks and without touching `failedLogEventCount`, gated only
by the once-per-name `loggedErrors` set. -/
def newFailedRequest (now : Nat) (meta : μ) (name : String) (queue : List ε)
    (st : LoggerState ε μ) : LoggerState ε μ :=
  if name ∈ st.loggedErrors then st
  else
    { st with
        loggedErrors := name :: st.loggedErrors
        failedLogEvents := st.failedLogEvents ++
          [{ events := queue, statsigMetadata := meta, time := now }] }

/-- Total buffered events across all stored failed batches. -/
def totalEvents (st : LoggerState ε μ) : Nat :=
  (st.failedLogEvents.map (fun b => b.events.length)).sum

/-- The bounds `_addFailedRequest` actually maintains: at most
`MAX_BATCHES_TO_RETRY + 1 = 101` stored batches, the running counter equal to
the true total of buffered events, and that total at most
`MAX_FAILED_EVENTS = 1000`. -/
def AddInv (st : LoggerState ε μ) : Prop :=
  st.failedLogEvents.length ≤ MAX_BATCHES_TO_RETRY + 1 ∧
  totalEvents st = st.failedLogEventCount ∧
  st.failedLogEventCount ≤ MAX_FAILED_EVENTS

instance (st : LoggerState ε μ) : Decidable (AddInv st) := by
  unfold AddInv; infer_instance

/-- A Failure Store state with 101 stored batches, reached purely through
accepted `_addFailedRequest` calls: the guard `length > 100` still admits the
101st batch. -/
def store101 : LoggerState Nat Unit :=
  (List.replicate 101
    ({ events := [0], statsigMetadata := (), time := 0 } :
      FailedLogEventBody Nat Unit)).foldl (addFailedRequest 0) initState

/-- A store whose counted events reach exactly 1000 through accepted
`_addFailedRequest` calls, followed by one `_newFailedRequest` delivery
failure carrying 5 events, which is pushed without any cap check. -/
def overflowStore : LoggerState Nat Unit :=
  newFailedRequest 0 () "statsig::log_event_failed" (List.replicate 5 0)
    ((List.replicate 10
      ({ events := List.replicate 100 0, statsigMetadata := (), time := 0 } :
        FailedLogEventBody Nat Unit)).foldl (addFailedRequest 0) initState)

/-- The queue swap at the head of `flush` (StatsigLogger.ts lines 242-249):
an empty queue is a no-op with nothing handed to delivery, otherwise
`oldQueue = queue; queue = []` and `oldQueue` is handed to the delivery
pipeline as one batch. -/
def flushDrain (st : LoggerState ε μ) : Option (List ε) × LoggerState ε μ :=
  if st.queue.length = 0 then (none, st)
  else (some st.queue, { st with queue := [] })

/-- A queue-level operation: `log` appending one event to the queue tail
(StatsigLogger.ts line 85), or a `flush` call. -/
inductive QOp (ε : Type) where
  | enq : ε → QOp ε
  | flushOp : QOp ε

/-- One trace step over the logger state paired with the list of batches
handed to delivery so far. -/
def stepOp (s : LoggerState ε μ × List (List ε)) (op : QOp ε) :
    LoggerState ε μ × List (List ε) :=
  match op with
  | .enq e => ({ s.1 with queue := s.1.queue ++ [e] }, s.2)
  | .flushOp =>
    match flushDrain s.1 with
    | (none, st) => (st, s.2)
    | (some batch, st) => (st, s.2 ++ [batch])

/-- Run a sequence of enqueue/flush operations. -/
def runTrace (s : LoggerState ε μ × List (List ε)) (ops : List (QOp ε)) :
    LoggerState ε μ × List (List ε) :=
  ops.foldl stepOp s

/-- The events enqueued by a trace, in order. -/
def enqueuedOf (ops : List (QOp ε)) : List ε :=
  ops.filterMap (fun op => match op with | .enq e => some e | .flushOp => none)

/-- The `isClosing` branch of `flush` taken when the network transport does
not support keepalive and `navigator.sendBeacon` exists (StatsigLogger.ts
lines 242-275).  `beaconOk` is the boolean returned by
`_network.sendLogBeacon`; `meta` is `_identity._statsigMetadata`; the returned
flag records whether `_saveFailedRequests` was invoked.  On a failed beacon
the queue is restored (`oldQueue.concat(this.queue)`), swept into the Failure
Store via `_addFailedRequest` with `time = Date.now()`, and cleared. -/
def flushClosingBeaconPath (beaconOk : Bool) (now : Nat) (meta : μ)
    (st : LoggerState ε μ) : LoggerState ε μ × Bool :=
  if st.queue.length = 0 then (st, false)
  else
    let oldQueue := st.queue
    let st1 := { st with queue := [] }
    if beaconOk then (st1, false)
    else
      let st2 := { st1 with queue := oldQueue ++ st1.queue }
      if st2.queue.length > 0 then
        let st3 := addFailedRequest now st2
          { events := st2.queue, statsigMetadata := meta, time := now }
        ({ st3 with queue := [] }, true)
      else (st2, true)

/-- Modelled from the spec: `ErrorBoundary._logError` is imported by
StatsigLogger.ts but its source is not in the repository slice.  The spec
requires internal diagnostic events to be "reported once per distinct
failure-reason key per process lifetime, to avoid feedback loops", so the
boundary keeps the set of keys seen and the sequence of diagnostics emitted. -/
structure ErrorBoundary where
  seen : List String
  emitted : List String
deriving DecidableEq

/-- Modelled from the spec: one `_logError(key, ...)` call — emit the
diagnostic only when the key has not been seen in this process lifetime. -/
def logError (eb : ErrorBoundary) (key : String) : ErrorBoundary :=
  if key ∈ eb.seen then eb
  else { seen := key :: eb.seen, emitted := eb.emitted ++ [key] }

/-- The `.catch` continuation of the normal-path `flush` delivery after its 3
bounded retries are exhausted (StatsigLogger.ts lines 294-317): report the
diagnostic through the error boundary under the key
`LOG_FAILURE_EVENT = "statsig::log_event_failed"` and call
`_newFailedRequest(LOG_FAILURE_EVENT, oldQueue)`. -/
def onFlushFinalFailure (now : Nat) (meta : μ) (oldQueue : List ε)
    (st : LoggerState ε μ) (eb : ErrorBoundary) :
    LoggerState ε μ × ErrorBoundary :=
  (newFailedRequest now meta "statsig::log_event_failed" oldQueue st,
   logError eb "statsig::log_event_failed")

/-- The error boundary invariant: no diagnostic key was emitted twice, and
every emitted key is recorded as seen. -/
def EBInv (eb : ErrorBoundary) : Prop :=
  eb.emitted.Nodup ∧ ∀ k ∈ eb.emitted, k ∈ eb.seen

instance (eb : ErrorBoundary) : Decidable (EBInv eb) := by
  unfold EBInv; infer_instance

/-- The per-item body of the `for (const requestBody of requestBodies)` loop
in `sendSavedRequests` (StatsigLogger.ts lines 351-371), applied to the
logger state: a structurally invalid item (`none`) is skipped; a replayed
batch whose one `postToEndpoint` attempt succeeds is discarded; a failed
replay is dropped when `fireAndForget` and otherwise re-added through
`_addFailedRequest`.  `replayOk` models the external transport outcome for
each batch. -/
def replayStep (replayOk : FailedLogEventBody ε μ → Bool) (fireAndForget : Bool)
    (now : Nat) (acc : LoggerState ε μ) (rb : Option (FailedLogEventBody ε μ)) :
    LoggerState ε μ :=
  match rb with
  | none => acc
  | some requestBody =>
    if replayOk requestBody then acc
    else if fireAndForget then acc
    else addFailedRequest now acc requestBody

/-- `sendSavedRequests` (StatsigLogger.ts lines 335-376): read the durable
key; when absent, clear it and return; set `fireAndForget` when the stored
string exceeds `MAX_LOCAL_STORAGE_SIZE`; when parsing fails the `catch`
swallows the error; each parsed batch is replayed as in `replayStep`; the
`finally` block clears the durable key unconditionally
(`_clearLocalStorageRequests`, lines 462-464). -/
def sendSavedRequests (replayOk : FailedLogEventBody ε μ → Bool) (now : Nat)
    (st : LoggerState ε μ) : LoggerState ε μ :=
  match st.localStorage with
  | none => { st with localStorage := none }
  | some payload =>
    let fireAndForget := decide (payload.strLength > MAX_LOCAL_STORAGE_SIZE)
    match payload.parsed with
    | none => { st with localStorage := none }
    | some requestBodies =>
      { requestBodies.foldl (replayStep replayOk fireAndForget now) st with
          localStorage := none }

/-- `StatsigUser` (imported type): the `privateAttributes` field the logger
must strip, with every other field opaque (`rest`); a JS object spread of
`null` produces an object with all fields absent, so `rest` is optional. -/
structure StatsigUser (ρ π : Type) where
  rest : Option ρ
  privateAttributes : Option π
deriving DecidableEq

/-- `LogEvent` (LogEvent.ts lines 3-15): scalar values `string | number`
become `String ⊕ Int`; `metadata : object | null` is opaque (`m`). -/
structure LogEvent (ρ π m : Type) where
  eventName : String
  user : Option (StatsigUser ρ π)
  value : Option (String ⊕ Int)
  metadata : Option m
  time : Nat
  statsigMetadata : List (String × (String ⊕ Int))
deriving DecidableEq

/-- The `LogEvent` constructor (LogEvent.ts lines 11-15); `now` is
`Date.now()`. -/
def mkLogEvent (eventName : String) (now : Nat) : LogEvent ρ π m :=
  { eventName := eventName
    user := none
    value := none
    metadata := none
    time := now
    statsigMetadata := [] }

/-- `setUser` (LogEvent.ts lines 33-37): `this.user = { ...newUser }` copies
the caller's object (spread of `null` yields `{}`), then `delete
this.user.privateAttributes` removes the field from the copy only.  The
second component is what the caller's object holds after the call. -/
def LogEvent.setUser (e : LogEvent ρ π m) (newUser : Option (StatsigUser ρ π)) :
    LogEvent ρ π m × Option (StatsigUser ρ π) :=
  let copy : StatsigUser ρ π :=
    match newUser with
    | none => { rest := none, privateAttributes := none }
    | some u => { rest := u.rest, privateAttributes := u.privateAttributes }
  ({ e with user := some { copy with privateAttributes := none } }, newUser)

/-- `setValue` (LogEvent.ts lines 21-23). -/
def LogEvent.setValue (e : LogEvent ρ π m) (value : Option (String ⊕ Int)) :
    LogEvent ρ π m :=
  { e with value := value }

/-- `setMetadata` (LogEvent.ts lines 25-27). -/
def LogEvent.setMetadata (e : LogEvent ρ π m) (metadata : Option m) :
    LogEvent ρ π m :=
  { e with metadata := metadata }

/-- `addStatsigMetadata` (LogEvent.ts lines 29-31). -/
def LogEvent.addStatsigMetadata (e : LogEvent ρ π m) (key : String)
    (value : String ⊕ Int) : LogEvent ρ π m :=
  { e with statsigMetadata := recordSet e.statsigMetadata key value }

/-- The serialized record returned by `toJsonObject` (LogEvent.ts
lines 39-48). -/
structure LogEventJson (ρ π m : Type) where
  eventName : String
  user : Option (StatsigUser ρ π)
  value : Option (String ⊕ Int)
  metadata : Option m
  time : Nat
  statsigMetadata : List (String × (String ⊕ Int))
deriving DecidableEq

/-- `toJsonObject` (LogEvent.ts lines 39-48). -/
def LogEvent.toJsonObject (e : LogEvent ρ π m) : LogEventJson ρ π m :=
  { eventName := e.eventName
    user := e.user
    value := e.value
    metadata := e.metadata
    time := e.time
    statsigMetadata := e.statsigMetadata }

/-- `EvaluationDetails` as consumed by the exposure loggers: the decision
reason and evaluation time. -/
structure EvaluationDetails where
  reason : String
  time : Nat
deriving DecidableEq

/-- An exposure event as produced by `logGateExposure` / `logConfigExposure`
(name plus the metadata record; values are `string | number`). -/
structure ExposureEvent where
  eventName : String
  metadata : List (String × (String ⊕ Nat))
deriving DecidableEq

/-- `logConfigExposure` (StatsigLogger.ts lines 133-166) restricted to the
dedupe gate and the produced event: the dedupe key is
`configName + ruleID + details.reason`; when `_shouldLogExposure` refuses,
the method returns with no event. -/
def logConfigExposure (keys : List (String × Nat)) (now : Nat)
    (configName ruleID : String) (details : EvaluationDetails)
    (isManualExposure : Bool) :
    Option ExposureEvent × List (String × Nat) :=
  let dedupeKey := configName ++ ruleID ++ details.reason
  match shouldLogExposure keys dedupeKey now with
  | (false, keys1) => (none, keys1)
  | (true, keys1) =>
    let metadata : List (String × (String ⊕ Nat)) :=
      [("config", Sum.inl configName), ("ruleID", Sum.inl ruleID),
       ("reason", Sum.inl details.reason), ("time", Sum.inr details.time)]
    let metadata := if isManualExposure
      then metadata ++ [("isManualExposure", Sum.inl "true")] else metadata
    (some { eventName := "statsig::config_exposure", metadata := metadata },
     keys1)

/-- `logGateExposure` (StatsigLogger.ts lines 96-131) restricted the same
way: the dedupe key is `gateName + String(gateValue) + ruleID +
details.reason`. -/
def logGateExposure (keys : List (String × Nat)) (now : Nat)
    (gateName : String) (gateValue : Bool) (ruleID : String)
    (details : EvaluationDetails) (isManualExposure : Bool) :
    Option ExposureEvent × List (String × Nat) :=
  let dedupeKey := gateName ++ (if gateValue then "true" else "false") ++
    ruleID ++ details.reason
  match shouldLogExposure keys dedupeKey now with
  | (false, keys1) => (none, keys1)
  | (true, keys1) =>
    let metadata : List (String × (String ⊕ Nat)) :=
      [("gate", Sum.inl gateName),
       ("gateValue", Sum.inl (if gateValue then "true" else "false")),
       ("ruleID", Sum.inl ruleID), ("reason", Sum.inl details.reason),
       ("time", Sum.inr details.time)]
    let metadata := if isManualExposure
      then metadata ++ [("isManualExposure", Sum.inl "true")] else metadata
    (some { eventName := "statsig::gate_exposure", metadata := metadata },
     keys1)

theorem recordGet_recordSet {α : Type} (m : List (String × α)) (key : String)
    (v : α) : recordGet (recordSet m key v) key = some v := by
  simp [recordGet, recordSet, List.find?]

theorem shouldLogExposure_suppressed (keys : List (String × Nat)) (key : String)
    (lastTime t : Nat) (hget : recordGet keys key = some lastTime)
    (ht : t ≤ lastTime + 600 * 1000) :
    shouldLogExposure keys key t = (false, keys) := by
  rw [shouldLogExposure, hget]
  exact if_pos (by omega)

/-- Claim C3: for every key, the first dedup-check call returns true and
records the current time; a call within 600000 ms of the recorded time
returns false; a call strictly more than 600000 ms later returns true and
refreshes the recorded time. -/
theorem claim3_dedup_window (keys : List (String × Nat)) (key : String)
    (now lastTime : Nat) :
    (recordGet keys key = none →
      shouldLogExposure keys key now = (true, recordSet keys key now) ∧
      recordGet (recordSet keys key now) key = some now) ∧
    (recordGet keys key = some lastTime → now ≤ lastTime + 600 * 1000 →
      shouldLogExposure keys key now = (false, keys)) ∧
    (recordGet keys key = some lastTime → lastTime + 600 * 1000 < now →
      shouldLogExposure keys key now = (true, recordSet keys key now) ∧
      recordGet (recordSet keys key now) key = some now) := by
  refine ⟨fun hnone => ?_, fun hsome hin => ?_, fun hsome hout => ?_⟩
  · rw [shouldLogExposure, hnone]
    exact ⟨rfl, recordGet_recordSet keys key now⟩
  · exact shouldLogExposure_suppressed keys key lastTime now hsome hin
  · rw [shouldLogExposure, hsome]
    exact ⟨if_neg (by omega), recordGet_recordSet keys key now⟩

/-- Concrete instance of claim C3: fresh key logs; a probe at exactly the
600000 ms boundary is suppressed; a probe 600001 ms after the recorded time
logs again and refreshes the time. -/
theorem claim3_dedup_window_witness :
    shouldLogExposure [] "k" 5 = (true, recordSet [] "k" 5) ∧
    shouldLogExposure [("k", 0)] "k" 600000 = (false, [("k", 0)]) ∧
    shouldLogExposure [("k", 0)] "k" 600001 =
      (true, recordSet [("k", 0)] "k" 600001) :=
  ⟨((claim3_dedup_window [] "k" 5 0).1 (by decide)).1,
   (claim3_dedup_window [("k", 0)] "k" 600000 0).2.1 (by decide) (by decide),
   ((claim3_dedup_window [("k", 0)] "k" 600001 0).2.2 (by decide) (by decide)).1⟩

/-- Claim C10: a dedup check that returns false leaves the recorded timestamp
unchanged, so after any number of suppressed probes the key still unlocks
strictly more than 600000 ms after the last recorded (true-returning) time. -/
theorem claim10_suppressed_probe_no_refresh (keys : List (String × Nat))
    (key : String) (now : Nat) :
    ((shouldLogExposure keys key now).1 = false →
      (shouldLogExposure keys key now).2 = keys) ∧
    (∀ lastTime (ts : List Nat), recordGet keys key = some lastTime →
      (∀ t ∈ ts, t ≤ lastTime + 600 * 1000) →
      probeAll keys key ts = keys ∧
      (∀ t ∈ ts, (shouldLogExposure keys key t).1 = false) ∧
      (lastTime + 600 * 1000 < now →
        shouldLogExposure (probeAll keys key ts) key now =
          (true, recordSet keys key now))) := by
  constructor
  · intro hfalse
    cases hget : recordGet keys key with
    | none => simp [shouldLogExposure, hget] at hfalse
    | some lastTime =>
      by_cases hc : lastTime ≥ now - 600 * 1000
      · simp [shouldLogExposure, hget, hc]
      · simp [shouldLogExposure, hget, hc] at hfalse
  · intro lastTime ts hget hts
    have hprobe : probeAll keys key ts = keys := by
      induction ts with
      | nil => rfl
      | cons t ts ih =>
        have hstep : shouldLogExposure keys key t = (false, keys) :=
          shouldLogExposure_suppressed keys key lastTime t hget
            (hts t (List.mem_cons_self t ts))
        show probeAll (shouldLogExposure keys key t).2 key ts = keys
        rw [hstep]
        exact ih (fun t ht => hts t (List.mem_cons_of_mem _ ht))
    refine ⟨hprobe, fun t ht => ?_, fun hout => ?_⟩
    · rw [shouldLogExposure_suppressed keys key lastTime t hget (hts t ht)]
    · rw [hprobe, shouldLogExposure, hget]
      exact if_neg (by omega)

/-- Concrete instance of claim C10: two suppressed probes (one at the exact
window edge) leave the map `[("k", 5)]` unchanged, each returns false, and a
probe at `5 + 600000 + 1` returns true and records the new time. -/
theorem claim10_suppressed_probe_no_refresh_witness :
    (shouldLogExposure [("k", 5)] "k" 10).2 = [("k", 5)] ∧
    probeAll [("k", 5)] "k" [600005, 300] = [("k", 5)] ∧
    (shouldLogExposure [("k", 5)] "k" 600005).1 = false ∧
    shouldLogExposure (probeAll [("k", 5)] "k" [600005, 300]) "k" 600006 =
      (true, recordSet [("k", 5)] "k" 600006) := by
  refine ⟨(claim10_suppressed_probe_no_refresh [("k", 5)] "k" 10).1 (by decide),
    ?_, ?_, ?_⟩
  · exact ((claim10_suppressed_probe_no_refresh [("k", 5)] "k" 0).2 5
      [600005, 300] (by decide) (by decide)).1
  · exact ((claim10_suppressed_probe_no_refresh [("k", 5)] "k" 0).2 5
      [600005, 300] (by decide) (by decide)).2.1 600005 (by decide)
  · exact ((claim10_suppressed_probe_no_refresh [("k", 5)] "k" 600006).2 5
      [600005, 300] (by decide) (by decide)).2.2 (by decide)

theorem addFailedRequest_AddInv (now : Nat) (st : LoggerState ε μ)
    (rb : FailedLogEventBody ε μ) (h : AddInv st) :
    AddInv (addFailedRequest now st rb) := by
  obtain ⟨hlen, hcnt, hcap⟩ := h
  unfold addFailedRequest
  split_ifs with h1 h2 h3
  · exact ⟨hlen, hcnt, hcap⟩
  · exact ⟨hlen, hcnt, hcap⟩
  · exact ⟨hlen, hcnt, hcap⟩
  · refine ⟨?_, ?_, ?_⟩
    · simp only [List.length_append, List.length_singleton]
      omega
    · simp only [totalEvents, List.map_append, List.sum_append] at hcnt ⊢
      simp only [List.map_singleton, List.sum_singleton]
      omega
    · show st.failedLogEventCount + rb.events.length ≤ MAX_FAILED_EVENTS
      omega

/-- Claim C1, amended: under any sequence of `_addFailedRequest` calls the
Failure Store holds at most 101 stored batches (not 100: the guard is a strict
`length > 100`) and at most 1000 total buffered events; an add whose `failedAt`
is older than 5 days, or arriving when more than 100 batches are stored, or
that would push the event count over 1000, is silently rejected and leaves the
store unchanged.  (`_newFailedRequest` adds bypass all of these checks.) -/
theorem claim1_failure_store_bounds (now : Nat) (st : LoggerState ε μ)
    (rbs : List (FailedLogEventBody ε μ)) :
    (AddInv st → AddInv (rbs.foldl (addFailedRequest now) st)) ∧
    (∀ rb : FailedLogEventBody ε μ,
      (rb.time < now - MS_RETRY_LOGS_CUTOFF ∨
       st.failedLogEvents.length > MAX_BATCHES_TO_RETRY ∨
       st.failedLogEventCount + rb.events.length > MAX_FAILED_EVENTS) →
      addFailedRequest now st rb = st) := by
  constructor
  · induction rbs generalizing st with
    | nil => exact id
    | cons rb rbs ih =>
      intro h
      rw [List.foldl_cons]
      exact ih (addFailedRequest now st rb) (addFailedRequest_AddInv now st rb h)
  · intro rb hrej
    unfold addFailedRequest
    split_ifs with h1 h2 h3
    · rfl
    · rfl
    · rfl
    · rcases hrej with h | h | h
      · exact absurd h h1
      · exact absurd h h2
      · exact absurd h h3

set_option maxRecDepth 100000 in
/-- Concrete instance of the amended claim C1: from the initial store, adding
one fresh single-event batch keeps the invariant, and a batch that would push
the event count past 1000 is rejected unchanged. -/
theorem claim1_failure_store_bounds_witness :
    AddInv (([({ events := [1], statsigMetadata := (), time := 7 } :
        FailedLogEventBody Nat Unit)]).foldl (addFailedRequest 7) initState) ∧
    addFailedRequest 7 (initState : LoggerState Nat Unit)
      { events := List.replicate 1001 0, statsigMetadata := (), time := 7 } =
      initState :=
  ⟨(claim1_failure_store_bounds 7 initState _).1 (by decide),
   (claim1_failure_store_bounds 7 initState []).2
     { events := List.replicate 1001 0, statsigMetadata := (), time := 7 }
     (Or.inr (Or.inr (by decide)))⟩

set_option maxRecDepth 100000 in
/-- Counterexample to claim C1 as stated: a sequence of 101 accepted
`_addFailedRequest` calls leaves 101 > 100 stored batches, and an
`_addFailedRequest`-filled store at 1000 events followed by one
`_newFailedRequest` delivery failure holds 1005 > 1000 buffered events. -/
theorem claim1_counterexample :
    (store101.failedLogEvents.length = 101 ∧
      ¬ store101.failedLogEvents.length ≤ 100) ∧
    (totalEvents overflowStore = 1005 ∧ ¬ totalEvents overflowStore ≤ 1000) := by
  decide

/-- Claim C5: flush is a no-op on an empty queue; otherwise it atomically
swaps the whole queue for an empty one and hands exactly the removed sequence,
in insertion order, to delivery as one batch.  The trace conservation law
(delivered batches flattened, plus the residual queue, equal the enqueued
events in order) shows no event is ever lost into, or duplicated across, two
batches. -/
theorem claim5_flush_atomic_drain (st : LoggerState ε μ) :
    (st.queue = [] → flushDrain st = (none, st)) ∧
    (st.queue ≠ [] → flushDrain st = (some st.queue, { st with queue := [] })) ∧
    (∀ (s : LoggerState ε μ × List (List ε)) (ops : List (QOp ε)),
      (runTrace s ops).2.flatten ++ (runTrace s ops).1.queue =
        s.2.flatten ++ (s.1.queue ++ enqueuedOf ops)) := by
  refine ⟨fun h => by rw [flushDrain, if_pos (by simp [h])],
          fun h => by rw [flushDrain, if_neg (by simp [h])], ?_⟩
  intro s ops
  induction ops generalizing s with
  | nil => simp [runTrace, enqueuedOf]
  | cons op ops ih =>
    rw [runTrace, List.foldl_cons, ← runTrace]
    rw [ih (stepOp s op)]
    cases op with
    | enq e => simp [stepOp, enqueuedOf]
    | flushOp =>
      by_cases hq : s.1.queue = []
      · simp [stepOp, flushDrain, hq, enqueuedOf]
      · simp [stepOp, flushDrain, hq, enqueuedOf]

/-- Concrete instance of claim C5: flushing a two-event queue drains it whole;
flushing an empty queue is a no-op; the conservation law on the trace
`enq 1, enq 2, flush, enq 3, flush, flush` yields batches `[[1,2],[3]]`. -/
theorem claim5_flush_atomic_drain_witness :
    flushDrain ({ initState with queue := [1, 2] } : LoggerState Nat Unit) =
      (some [1, 2], initState) ∧
    flushDrain (initState : LoggerState Nat Unit) = (none, initState) ∧
    (runTrace ((initState : LoggerState Nat Unit), [])
        [.enq 1, .enq 2, .flushOp, .enq 3, .flushOp, .flushOp]).2.flatten ++
      (runTrace ((initState : LoggerState Nat Unit), [])
        [.enq 1, .enq 2, .flushOp, .enq 3, .flushOp, .flushOp]).1.queue =
      [1, 2, 3] :=
  ⟨(claim5_flush_atomic_drain ({ initState with queue := [1, 2] } :
      LoggerState Nat Unit)).2.1 (by decide),
   (claim5_flush_atomic_drain (initState : LoggerState Nat Unit)).1 rfl,
   by
    rw [(claim5_flush_atomic_drain (initState : LoggerState Nat Unit)).2.2
      (initState, []) [.enq 1, .enq 2, .flushOp, .enq 3, .flushOp, .flushOp]]
    decide⟩

/-- Claim C6, amended: a terminating flush of a non-empty queue with keepalive
unsupported and the beacon send returning false synchronously hands the
queue's events to the Failure Store's `add`, empties the in-memory queue, and
invokes persist — and the events actually land in the store only when the
store's acceptance checks pass (at most 100 batches already stored and the
event cap not exceeded; the swept batch is always fresh); otherwise the add is
silently rejected. -/
theorem claim6_terminating_beacon_fallback (now : Nat) (meta : μ)
    (st : LoggerState ε μ) (hne : st.queue ≠ []) :
    (flushClosingBeaconPath false now meta st).1.queue = [] ∧
    (flushClosingBeaconPath false now meta st).2 = true ∧
    (flushClosingBeaconPath false now meta st).1 =
      { addFailedRequest now st
          { events := st.queue, statsigMetadata := meta, time := now }
        with queue := [] } ∧
    (st.failedLogEvents.length ≤ MAX_BATCHES_TO_RETRY →
      st.failedLogEventCount + st.queue.length ≤ MAX_FAILED_EVENTS →
      (flushClosingBeaconPath false now meta st).1.failedLogEvents =
        st.failedLogEvents ++
          [{ events := st.queue, statsigMetadata := meta, time := now }]) := by
  have hlen : ¬ st.queue.length = 0 := by simp [hne]
  have hq : st.queue ++ [] = st.queue := List.append_nil _
  have hmain : flushClosingBeaconPath false now meta st =
      ({ addFailedRequest now st
          { events := st.queue, statsigMetadata := meta, time := now }
         with queue := [] }, true) := by
    rw [flushClosingBeaconPath, if_neg hlen]
    simp only [Bool.false_eq_true, if_false, hq]
    rw [if_pos (by omega)]
  refine ⟨?_, ?_, ?_, ?_⟩
  · rw [hmain]
  · rw [hmain]
  · exact congrArg Prod.fst hmain
  · intro hbatches hcount
    have hadd : addFailedRequest now st
        { events := st.queue, statsigMetadata := meta, time := now } =
        { st with
            failedLogEvents := st.failedLogEvents ++
              [{ events := st.queue, statsigMetadata := meta, time := now }]
            failedLogEventCount := st.failedLogEventCount + st.queue.length } := by
      rw [addFailedRequest]
      simp only
      rw [if_neg (by omega), if_neg (by omega), if_neg (by omega)]
    rw [hmain, hadd]

set_option maxRecDepth 100000 in
/-- Concrete instance of the amended claim C6: on a fresh logger with queue
`[7]`, the failed-beacon terminating flush empties the queue, invokes persist,
and stores the batch `{events := [7], time := now}`. -/
theorem claim6_terminating_beacon_fallback_witness :
    (flushClosingBeaconPath false 3 ()
        ({ initState with queue := [7] } : LoggerState Nat Unit)).1.queue = [] ∧
    (flushClosingBeaconPath false 3 ()
        ({ initState with queue := [7] } : LoggerState Nat Unit)).2 = true ∧
    (flushClosingBeaconPath false 3 ()
        ({ initState with queue := [7] } : LoggerState Nat Unit)).1.failedLogEvents =
      [{ events := [7], statsigMetadata := (), time := 3 }] := by
  obtain ⟨h1, h2, _, h4⟩ := claim6_terminating_beacon_fallback 3 ()
    ({ initState with queue := [7] } : LoggerState Nat Unit) (by decide)
  exact ⟨h1, h2, h4 (by decide) (by decide)⟩

set_option maxRecDepth 100000 in
/-- Counterexample to claim C6 as stated: with the (reachable) Failure Store
`store101` already holding 101 batches, the failed-beacon terminating flush of
queue `[7]` still empties the queue and invokes persist, but the queue's
events are silently rejected and never land in the Failure Store. -/
theorem claim6_counterexample :
    (flushClosingBeaconPath false 3 ()
        ({ store101 with queue := [7] })).1.queue = [] ∧
    (flushClosingBeaconPath false 3 () ({ store101 with queue := [7] })).2 = true ∧
    (flushClosingBeaconPath false 3 ()
        ({ store101 with queue := [7] })).1.failedLogEvents =
      store101.failedLogEvents ∧
    ((flushClosingBeaconPath false 3 ()
        ({ store101 with queue := [7] })).1.failedLogEvents.filter
      (fun b => b.events = [7])).length = 0 := by
  decide

theorem logError_EBInv (eb : ErrorBoundary) (key : String) (h : EBInv eb) :
    EBInv (logError eb key) ∧ (logError eb key).emitted.count key ≤ 1 := by
  obtain ⟨hnodup, hseen⟩ := h
  rw [logError]
  by_cases hmem : key ∈ eb.seen
  · rw [if_pos hmem]
    exact ⟨⟨hnodup, hseen⟩, List.nodup_iff_count_le_one.mp hnodup key⟩
  · rw [if_neg hmem]
    have hkey : key ∉ eb.emitted := fun hk => hmem (hseen key hk)
    refine ⟨⟨?_, ?_⟩, ?_⟩
    · refine List.nodup_append.mpr ⟨hnodup, List.nodup_singleton key, ?_⟩
      intro a ha hb
      rw [List.mem_singleton] at hb
      exact hkey (hb ▸ ha)
    · intro k hk
      rcases List.mem_append.mp hk with hk | hk
      · exact List.mem_cons_of_mem key (hseen k hk)
      · rw [List.mem_singleton] at hk
        exact hk ▸ List.mem_cons_self key eb.seen
    · rw [List.count_append, List.count_eq_zero.mpr hkey]
      simp

/-- Claim C2, amended: when a normal-path delivery exhausts its retries and
finally fails, the failed batch is appended to the Failure Store as one
FailedBatch with `failedAt` equal to the failure time only on the first final
failure for the `"statsig::log_event_failed"` key in the process lifetime; a
later final failure under the same (already-recorded) key leaves the Failure
Store unchanged and the batch is dropped.  The internal diagnostic is
reported at most once per distinct failure-reason key per lifetime. -/
theorem claim2_final_failure_store (now : Nat) (meta : μ) (oldQueue : List ε)
    (st : LoggerState ε μ) (eb : ErrorBoundary) :
    ("statsig::log_event_failed" ∉ st.loggedErrors →
      (onFlushFinalFailure now meta oldQueue st eb).1.failedLogEvents =
        st.failedLogEvents ++
          [{ events := oldQueue, statsigMetadata := meta, time := now }]) ∧
    ("statsig::log_event_failed" ∈ st.loggedErrors →
      (onFlushFinalFailure now meta oldQueue st eb).1 = st) ∧
    (EBInv eb →
      EBInv (onFlushFinalFailure now meta oldQueue st eb).2 ∧
      (onFlushFinalFailure now meta oldQueue st eb).2.emitted.count
        "statsig::log_event_failed" ≤ 1) := by
  refine ⟨fun hnew => ?_, fun hold => ?_, fun hinv => ?_⟩
  · show (newFailedRequest now meta "statsig::log_event_failed" oldQueue
      st).failedLogEvents = _
    rw [newFailedRequest, if_neg hnew]
  · show newFailedRequest now meta "statsig::log_event_failed" oldQueue st = st
    rw [newFailedRequest, if_pos hold]
  · exact logError_EBInv eb "statsig::log_event_failed" hinv

/-- Concrete instance of the amended claim C2, exercising both gates: a first
final failure from the initial state stores the batch `[1]` and emits the
diagnostic once; a second final failure, with the key now recorded, leaves
both the store and the diagnostics unchanged. -/
theorem claim2_final_failure_store_witness :
    ((onFlushFinalFailure 100 () [1] (initState : LoggerState Nat Unit)
        ⟨[], []⟩).1.failedLogEvents =
      [{ events := [1], statsigMetadata := (), time := 100 }]) ∧
    ((onFlushFinalFailure 200 () [2]
        { (initState : LoggerState Nat Unit) with
            loggedErrors := ["statsig::log_event_failed"]
            failedLogEvents :=
              [{ events := [1], statsigMetadata := (), time := 100 }] }
        ⟨["statsig::log_event_failed"], ["statsig::log_event_failed"]⟩).1 =
      { (initState : LoggerState Nat Unit) with
          loggedErrors := ["statsig::log_event_failed"]
          failedLogEvents :=
            [{ events := [1], statsigMetadata := (), time := 100 }] }) ∧
    EBInv (onFlushFinalFailure 100 () [1] (initState : LoggerState Nat Unit)
      ⟨[], []⟩).2 :=
  ⟨by
    rw [(claim2_final_failure_store 100 () [1]
      (initState : LoggerState Nat Unit) ⟨[], []⟩).1 (by decide)]
    decide,
   (claim2_final_failure_store 200 () [2] _ _).2.1 (by decide),
   ((claim2_final_failure_store 100 () [1] (initState : LoggerState Nat Unit)
      ⟨[], []⟩).2.2 (by decide)).1⟩

/-- Counterexample to claim C2 as stated: after a first final failure has
recorded the `"statsig::log_event_failed"` key, a second exhausted delivery
of batch `[2]` does not move that batch to the Failure Store at all — the
store still holds only the first batch and `[2]` appears in no FailedBatch. -/
theorem claim2_counterexample :
    ((onFlushFinalFailure 200 () [2]
        (onFlushFinalFailure 100 () [1] (initState : LoggerState Nat Unit)
          ⟨[], []⟩).1
        (onFlushFinalFailure 100 () [1] (initState : LoggerState Nat Unit)
          ⟨[], []⟩).2).1.failedLogEvents.map (fun b => b.events)) = [[1]] ∧
    ¬ (((onFlushFinalFailure 200 () [2]
        (onFlushFinalFailure 100 () [1] (initState : LoggerState Nat Unit)
          ⟨[], []⟩).1
        (onFlushFinalFailure 100 () [1] (initState : LoggerState Nat Unit)
          ⟨[], []⟩).2).1.failedLogEvents.map (fun b => b.events)).contains
      [2] = true) := by
  decide

/-- Claim C4: whatever the durable substrate holds (absent key, unparsable
string, or any sequence of batches with any replay outcomes), a run of the
startup replay ends with the persisted key removed. -/
theorem claim4_replay_clears_key (replayOk : FailedLogEventBody ε μ → Bool)
    (now : Nat) (st : LoggerState ε μ) :
    (sendSavedRequests replayOk now st).localStorage = none := by
  obtain ⟨q, f, c, l, e, ls⟩ := st
  cases ls with
  | none => rfl
  | some payload =>
    cases hp : payload.parsed with
    | none => rw [sendSavedRequests]; simp only [hp]
    | some requestBodies => rw [sendSavedRequests]; simp only [hp]

theorem replay_foldl_faf (replayOk : FailedLogEventBody ε μ → Bool) (now : Nat)
    (requestBodies : List (Option (FailedLogEventBody ε μ)))
    (st : LoggerState ε μ) :
    requestBodies.foldl (replayStep replayOk true now) st = st := by
  induction requestBodies generalizing st with
  | nil => rfl
  | cons rb rbs ih =>
    rw [List.foldl_cons]
    cases rb with
    | none => exact ih st
    | some requestBody =>
      by_cases hok : replayOk requestBody
      · simp only [replayStep, hok, if_true]
        exact ih st
      · simp only [replayStep, hok, if_false, if_true]
        exact ih st

theorem replay_foldl_readd (replayOk : FailedLogEventBody ε μ → Bool) (now : Nat)
    (requestBodies : List (Option (FailedLogEventBody ε μ)))
    (st : LoggerState ε μ) :
    requestBodies.foldl (replayStep replayOk false now) st =
      (requestBodies.filterMap (fun rb => rb.bind (fun requestBody =>
        if replayOk requestBody then none else some requestBody))).foldl
        (addFailedRequest now) st := by
  induction requestBodies generalizing st with
  | nil => rfl
  | cons rb rbs ih =>
    rw [List.foldl_cons]
    cases rb with
    | none =>
      rw [List.filterMap_cons]
      exact ih st
    | some requestBody =>
      rw [List.filterMap_cons]
      by_cases hok : replayOk requestBody
      · simp only [replayStep, hok, if_true, Option.some_bind]
        exact ih st
      · simp only [replayStep, hok, Bool.false_eq_true, if_false,
          Option.some_bind]
        rw [List.foldl_cons]
        exact ih (addFailedRequest now st requestBody)

/-- Claim C7: when the persisted payload read at startup exceeds
`MAX_LOCAL_STORAGE_SIZE`, replay is fire-and-forget — the Failure Store is
left exactly as it was, no failed replay is re-added; at or below the
threshold, exactly the failed replays are re-added through
`_addFailedRequest` (hence subject to its normal bounds). -/
theorem claim7_fire_and_forget (replayOk : FailedLogEventBody ε μ → Bool)
    (now : Nat) (st : LoggerState ε μ) (payload : PersistedPayload ε μ)
    (requestBodies : List (Option (FailedLogEventBody ε μ)))
    (hls : st.localStorage = some payload)
    (hp : payload.parsed = some requestBodies) :
    (payload.strLength > MAX_LOCAL_STORAGE_SIZE →
      (sendSavedRequests replayOk now st).failedLogEvents =
        st.failedLogEvents ∧
      (sendSavedRequests replayOk now st).failedLogEventCount =
        st.failedLogEventCount) ∧
    (payload.strLength ≤ MAX_LOCAL_STORAGE_SIZE →
      sendSavedRequests replayOk now st =
        { (requestBodies.filterMap (fun rb => rb.bind (fun requestBody =>
            if replayOk requestBody then none else some requestBody))).foldl
            (addFailedRequest now) st with localStorage := none }) := by
  have hmain : ∀ faf : Bool,
      (decide (payload.strLength > MAX_LOCAL_STORAGE_SIZE)) = faf →
      sendSavedRequests replayOk now st =
        { requestBodies.foldl (replayStep replayOk faf now) st with
            localStorage := none } := by
    intro faf hfaf
    obtain ⟨q, f, c, l, e, ls⟩ := st
    cases hls
    rw [sendSavedRequests]
    simp only [hp, hfaf]
  constructor
  · intro hbig
    rw [hmain true (by simpa using hbig), replay_foldl_faf]
    exact ⟨rfl, rfl⟩
  · intro hsmall
    rw [hmain false (by simpa using hsmall), replay_foldl_readd]

set_option maxRecDepth 100000 in
/-- Concrete instance of claim C7: the same two-batch payload (one replay
succeeding, one failing) with an oversized length leaves the store empty,
and with a small length re-adds exactly the failed batch. -/
theorem claim7_fire_and_forget_witness :
    ((sendSavedRequests (fun rb => rb.time == 1) 5
        ({ initState with localStorage := some ({
               strLength := 1024001
               parsed := some
                 [some { events := [1], statsigMetadata := (), time := 1 },
                  some { events := [2], statsigMetadata := (), time := 2 },
                  none] } : PersistedPayload Nat Unit) } :
          LoggerState Nat Unit)).failedLogEvents = []) ∧
    ((sendSavedRequests (fun rb => rb.time == 1) 5
        ({ initState with localStorage := some ({
               strLength := 64
               parsed := some
                 [some { events := [1], statsigMetadata := (), time := 1 },
                  some { events := [2], statsigMetadata := (), time := 2 },
                  none] } : PersistedPayload Nat Unit) } :
          LoggerState Nat Unit)).failedLogEvents =
      [{ events := [2], statsigMetadata := (), time := 2 }]) := by
  constructor
  · rw [((claim7_fire_and_forget (fun rb => rb.time == 1) 5 _ _ _ rfl rfl).1
      (by decide)).1]
    rfl
  · rw [(claim7_fire_and_forget (fun rb => rb.time == 1) 5 _ _ _ rfl rfl).2
      (by decide)]
    decide

/-- Claim C8: `setUser` stores a copy of the user with `privateAttributes`
stripped from the serialized output, leaves the caller's object untouched
(its `privateAttributes` preserved), and no later mutator of the event
touches the stored user. -/
theorem claim8_setUser_sanitizes {ρ π m : Type} (e : LogEvent ρ π m)
    (u : StatsigUser ρ π) (v : Option (String ⊕ Int)) (md : Option m)
    (key : String) (x : String ⊕ Int) :
    (e.setUser (some u)).2 = some u ∧
    ((e.setUser (some u)).1.toJsonObject).user =
      some { rest := u.rest, privateAttributes := none } ∧
    (((e.setUser (some u)).1.setValue v).toJsonObject).user =
      some { rest := u.rest, privateAttributes := none } ∧
    (((e.setUser (some u)).1.setMetadata md).toJsonObject).user =
      some { rest := u.rest, privateAttributes := none } ∧
    (((e.setUser (some u)).1.addStatsigMetadata key x).toJsonObject).user =
      some { rest := u.rest, privateAttributes := none } :=
  ⟨rfl, rfl, rfl, rfl, rfl⟩

/-- Claim C9: the unseparated concatenation makes distinct config-exposure
triples — and distinct gate-exposure tuples — collide on the same dedupe key,
so the second, genuinely different exposure inside the 600000 ms window is
suppressed and produces no event. -/
theorem claim9_dedupe_key_collision :
    (∃ n1 r1 s1 n2 r2 s2 : String,
      (n1, r1, s1) ≠ (n2, r2, s2) ∧
      n1 ++ r1 ++ s1 = n2 ++ r2 ++ s2 ∧
      (logConfigExposure [] 0 n1 r1 ⟨s1, 0⟩ false).1.isSome = true ∧
      (logConfigExposure (logConfigExposure [] 0 n1 r1 ⟨s1, 0⟩ false).2 1000
        n2 r2 ⟨s2, 0⟩ false).1 = none) ∧
    (∃ (g1 : String × Bool × String × String) (g2 : String × Bool × String × String),
      g1 ≠ g2 ∧
      g1.1 ++ (if g1.2.1 then "true" else "false") ++ g1.2.2.1 ++ g1.2.2.2 =
        g2.1 ++ (if g2.2.1 then "true" else "false") ++ g2.2.2.1 ++ g2.2.2.2 ∧
      (logGateExposure [] 0 g1.1 g1.2.1 g1.2.2.1 ⟨g1.2.2.2, 0⟩ false).1.isSome =
        true ∧
      (logGateExposure
        (logGateExposure [] 0 g1.1 g1.2.1 g1.2.2.1 ⟨g1.2.2.2, 0⟩ false).2 1000
        g2.1 g2.2.1 g2.2.2.1 ⟨g2.2.2.2, 0⟩ false).1 = none) :=
  ⟨⟨"ab", "c", "d", "a", "bc", "d", by decide, by decide, by decide, by decide⟩,
   ⟨("a", true, "r", "s"), ("a", true, "rs", ""), by decide, by decide,
    by decide, by decide⟩⟩

end StatsigLite
